import Mathlib

/-!
Shallow embedding of the EasyAuthServer core (src/easyauth/server.py):
credential validation (validate_user_pw), permission resolution
(get_user_permissions) and checking (the router's permission loop and
parse_permissions), token issuance (issue_token), tracking-store
bookkeeping (is_valid_token, revoke_token, token_cleanup), key setup
(key_setup) and Google OAuth federation (generate_google_oauth_token).

Machine-level conventions: timestamps are natural numbers (an abstract
monotone clock; each datetime.now() call in the source becomes an explicit
clock-reading parameter), the token tracking store (the Tokens model) is a
list of records, and external effects (bcrypt, the JWK parser, user
registration) are passed in as explicit outcome parameters so that every
control-flow branch of the source is represented.
-/

namespace EasyAuth

/-! Authorization-graph entities (easyauth.models; pydantic-backed model
classes).  Equality between two objects of the same model class is
field-wise, matching pydantic semantics. -/

structure Action where
  action : String
deriving DecidableEq, Repr

structure Role where
  role : String
  actions : List Action
deriving DecidableEq, Repr

structure Group where
  group_name : String
  roles : List Role
deriving DecidableEq, Repr

structure Users where
  username : String
  password : String
  email : String
  account_type : String
  groups : List Group
deriving DecidableEq, Repr

/-- Outcome of the external bcrypt comparison
is_password_valid(user.password, password) (server.py lines 548-550):
bcrypt.checkpw either returns a boolean, raises ValueError (for example
"Invalid salt" when the stored hash is not a valid bcrypt hash), or raises
some other exception. -/
inductive PwCheck
  | ok (valid : Bool)
  | valueError
  | otherError
deriving DecidableEq, Repr

/-- Result of validate_user_pw: it returns the user object, returns None,
or raises HTTPException(status, detail). -/
inductive AuthResult
  | retUser (u : Users)
  | retNone
  | raised (status : Nat) (detail : String)
deriving DecidableEq, Repr

/-- Embedding of EasyAuthServer.validate_user_pw (server.py lines 634-655).
The database lookup Users.get(username=username) is the lookup parameter;
the bcrypt comparison outcome is the check parameter.  Control flow of the
source: a service account raises HTTPException 401; the inner try returns
user on a valid password and None on an invalid one; except ValueError
logs and then falls through to the return user statement on line 650; any
other exception is caught by the outer handler, logged, and control falls
to the final return None on line 655. -/
def validate_user_pw (lookup : Option Users) (check : PwCheck) : AuthResult :=
  match lookup with
  | Option.none => AuthResult.retNone
  | Option.some user =>
    if user.account_type = "service" then
      AuthResult.raised 401 "unable to login with service accounts"
    else
      match check with
      | PwCheck.ok valid => if valid then AuthResult.retUser user else AuthResult.retNone
      | PwCheck.valueError => AuthResult.retUser user
      | PwCheck.otherError => AuthResult.retNone

/-- Concrete non-service user whose stored password field is not a valid
bcrypt hash (so bcrypt.checkpw raises ValueError on it). -/
def aliceCorruptHash : Users :=
  { username := "alice", password := "not-a-bcrypt-hash", email := "alice@example.com",
    account_type := "user", groups := [] }

/-- Concrete service account. -/
def svcAccount : Users :=
  { username := "svc", password := "", email := "svc@example.com",
    account_type := "service", groups := [] }

/-! Permission resolution (get_user_permissions, server.py lines 657-681).
The permissions dictionary built there mixes Python value kinds: the lists
stored under "actions"/"roles"/"groups" receive name STRINGS
(action.action, role.role, group.group_name), while the membership guards
test the model OBJECTS (action, role, group) against those lists.  Python
equality between a model instance and a str is False, and between two
model instances is field-wise; PyVal reproduces exactly that equality
relation, so the embedding keeps the source's comparisons verbatim. -/

inductive PyVal
  | str (s : String)
  | actionObj (a : Action)
  | roleObj (r : Role)
  | groupObj (g : Group)
deriving DecidableEq, Repr

/-- Python dict holding the permission snapshot: a key is present (some
list) or absent (none), mirroring the conditional key creation in
get_user_permissions and the KeyError behavior in issue_token. -/
structure PermDict where
  actions : Option (List PyVal) := Option.none
  roles : Option (List PyVal) := Option.none
  groups : Option (List PyVal) := Option.none
  users : Option (List PyVal) := Option.none
deriving DecidableEq, Repr

/-- Embedding of the innermost loop body (lines 667-671): ensure the
"actions" key exists, then append action.action unless the Action object
is already a member of the list. -/
def addAction (acc : List PyVal) (a : Action) : List PyVal :=
  if PyVal.actionObj a ∈ acc then acc else acc ++ [PyVal.str a.action]

/-- Embedding of lines 672-675: ensure the "roles" key exists, then append
role.role unless the Role object is already a member of the list. -/
def addRole (acc : List PyVal) (r : Role) : List PyVal :=
  if PyVal.roleObj r ∈ acc then acc else acc ++ [PyVal.str r.role]

/-- Embedding of lines 676-679: ensure the "groups" key exists, then
append group.group_name unless the Group object is already a member. -/
def addGroup (acc : List PyVal) (g : Group) : List PyVal :=
  if PyVal.groupObj g ∈ acc then acc else acc ++ [PyVal.str g.group_name]

/-- Embedding of EasyAuthServer.get_user_permissions (lines 657-681): the
triple nested loop over user.groups / group.roles / role.actions, followed
by permissions["users"] = [user.username]. -/
def get_user_permissions (user : Users) : PermDict :=
  let perms := user.groups.foldl
    (fun (perms : PermDict) group =>
      let perms := group.roles.foldl
        (fun (perms : PermDict) role =>
          let perms := role.actions.foldl
            (fun (perms : PermDict) action =>
              { perms with actions := Option.some (addAction (perms.actions.getD []) action) })
            perms
          { perms with roles := Option.some (addRole (perms.roles.getD []) role) })
        perms
      { perms with groups := Option.some (addGroup (perms.groups.getD []) group) })
    ({} : PermDict)
  { perms with users := Option.some [PyVal.str user.username] }

/-- Concrete user for the C3 evaluation: member of group g1 whose role r1
grants actions a1 and a2, and of group g2 whose role r2 grants action a2
again. -/
def bobTwoGroups : Users :=
  { username := "bob", password := "", email := "bob@example.com", account_type := "user",
    groups :=
      [ { group_name := "g1",
          roles := [ { role := "r1", actions := [{ action := "a1" }, { action := "a2" }] } ] },
        { group_name := "g2",
          roles := [ { role := "r2", actions := [{ action := "a2" }] } ] } ] }

/-! Permission requirement checking.  A requirement is the permissions
dict attached to a protected endpoint (built by parse_permissions,
server.py lines 854-879); dict iteration order is insertion order, so it
embeds as an association list.  The token side is token["permissions"]
after the JWT JSON round-trip, whose values are lists of plain strings; it
embeds as a key lookup returning the value list when the key is present. -/

abbrev Requirement := List (String × List String)

/-- One iteration of the permission loop for a single requirement entry
(server.py lines 811-818): skip when the dimension is absent from the
token's permissions, else test whether any required value occurs in the
token's value list. -/
def dimensionHit (tokenPerms : String → Option (List String))
    (p : String × List String) : Bool :=
  match tokenPerms p.1 with
  | Option.none => false
  | Option.some vals => p.2.any (fun v => vals.contains v)

/-- Embedding of the allowed-flag loop in the router's mock_function
(server.py lines 809-818): allowed starts False and is set once some
required value is found in the token's same dimension. -/
def checkAllowed (required : Requirement)
    (tokenPerms : String → Option (List String)) : Bool :=
  required.foldl
    (fun allowed p =>
      match tokenPerms p.1 with
      | Option.none => allowed
      | Option.some vals => allowed || p.2.any (fun v => vals.contains v))
    false

/-- Python truthiness of an optional list argument: None and the empty
list are both falsy. -/
def pyTruthyList : Option (List String) → Bool
  | Option.none => false
  | Option.some l => !l.isEmpty

/-- Python truthiness of an optional requirement dict: None and the empty
dict are both falsy. -/
def pyTruthyReq : Option Requirement → Bool
  | Option.none => false
  | Option.some r => !r.isEmpty

/-- Embedding of EasyAuthServer.parse_permissions (server.py lines
854-879): collect the dimensions that were passed (truthy), and when none
were, substitute the router default or the server-wide default. -/
def parse_permissions (users groups roles actions : Option (List String))
    (default_permissions : Option Requirement)
    (DEFAULT_PERMISSION : Requirement) : Requirement :=
  let permissions : Requirement := []
  let permissions :=
    if pyTruthyList users then permissions ++ [("users", users.getD [])] else permissions
  let permissions :=
    if pyTruthyList groups then permissions ++ [("groups", groups.getD [])] else permissions
  let permissions :=
    if pyTruthyList roles then permissions ++ [("roles", roles.getD [])] else permissions
  let permissions :=
    if pyTruthyList actions then permissions ++ [("actions", actions.getD [])] else permissions
  if permissions.isEmpty then
    if pyTruthyReq default_permissions then default_permissions.getD [] else DEFAULT_PERMISSION
  else
    permissions

/-- Key lookup in a token permission snapshot given as an association
list. -/
def snapshotLookup (snap : List (String × List String)) (k : String) :
    Option (List String) :=
  (snap.find? (fun p => p.1 == k)).map (fun p => p.2)

/-! Token issuance (issue_token, server.py lines 496-527).  Each
datetime.now() call in the source is a separate clock reading: tStore is
the reading on line 508 that fixes the tracking record's expiration,
tIssued the reading on line 515 stored as the record's issued field, and
tJwt the reading taken inside jwt.generate_jwt when it computes the exp
claim from the lifetime passed on line 524.  The uuid4 value is the
token_id parameter, the ISSUER/SUBJECT/AUDIENCE environment variables are
the env parameter, and delta is the requested lifetime. -/

structure IssueEnv where
  ISSUER : String
  SUBJECT : String
  AUDIENCE : String
deriving DecidableEq, Repr

/-- Record written to the Tokens tracking store. -/
structure TokenRec where
  token_id : String
  username : PyVal
  issued : Nat
  expiration : Nat
deriving DecidableEq, Repr

/-- Claims placed in the JWT payload on lines 500-506. -/
structure JwtPayload where
  iss : String
  sub : String
  aud : String
  token_id : String
  permissions : PermDict
deriving DecidableEq, Repr

/-- Signed JWT envelope: the payload plus the exp claim set by
jwt.generate_jwt from its own clock reading. -/
structure SignedToken where
  payload : JwtPayload
  exp : Nat
deriving DecidableEq, Repr

/-- Exceptions issue_token can raise while evaluating
permissions["users"][0]: KeyError when the "users" key is absent,
IndexError when its list is empty. -/
inductive IssueErr
  | keyError (key : String)
  | indexError
deriving DecidableEq, Repr

/-- Embedding of EasyAuthServer.issue_token (server.py lines 496-527).
The payload and expiration are computed first; evaluating
permissions["users"][0] happens while building the Tokens.create call, so
a KeyError/IndexError there aborts the call before any record is created
and before jwt.generate_jwt runs.  On success the tracking record and the
signed envelope are both produced. -/
def issue_token (env : IssueEnv) (token_id : String) (permissions : PermDict)
    (delta tStore tIssued tJwt : Nat) :
    Except IssueErr (TokenRec × SignedToken) :=
  let payload : JwtPayload :=
    { iss := env.ISSUER, sub := env.SUBJECT, aud := env.AUDIENCE,
      token_id := token_id, permissions := permissions }
  let expiration := tStore + delta
  match permissions.users with
  | Option.none => Except.error (IssueErr.keyError "users")
  | Option.some us =>
    match us with
    | [] => Except.error IssueErr.indexError
    | u0 :: _ =>
      let record : TokenRec :=
        { token_id := token_id, username := u0, issued := tIssued, expiration := expiration }
      let tok : SignedToken := { payload := payload, exp := tJwt + delta }
      Except.ok (record, tok)

/-- Concrete issuance environment. -/
def env0 : IssueEnv := { ISSUER := "EASYAUTH", SUBJECT := "EASYAUTH", AUDIENCE := "easyauth" }

/-- Concrete permission snapshot with a single user. -/
def permsAlice : PermDict := { users := Option.some [PyVal.str "alice"] }

/-! Tracking-store bookkeeping.  The Tokens store is keyed by token_id
(the sole revocation key); it embeds as a list of records, Tokens.get as
first-match lookup and row deletion as removal of the found record. -/

/-- Embedding of EasyAuthServer.is_valid_token (server.py lines 470-471):
true iff Tokens.get(token_id=token_id) finds a record. -/
def is_valid_token (store : List TokenRec) (token_id : String) : Bool :=
  (store.find? (fun t => t.token_id == token_id)).isSome

/-- Embedding of EasyAuthServer.revoke_token (server.py lines 473-477):
look the record up; when present delete that record, otherwise do
nothing. -/
def revoke_token (store : List TokenRec) (token_id : String) : List TokenRec :=
  match store.find? (fun t => t.token_id == token_id) with
  | Option.some t => store.erase t
  | Option.none => store

/-- Embedding of EasyAuthServer.token_cleanup (server.py lines 479-494):
delete every record with datetime.now() > expiration, then report
len(all_tokens) - Tokens.count() as the number removed.  The observed
current time is the single clock reading now. -/
def token_cleanup (all_tokens : List TokenRec) (now : Nat) :
    List TokenRec × Nat :=
  let kept := all_tokens.filter (fun t => !(decide (now > t.expiration)))
  (kept, all_tokens.length - kept.length)

/-- Concrete tracking record that is expired at time 10. -/
def tokRecA : TokenRec :=
  { token_id := "a", username := PyVal.str "ua", issued := 0, expiration := 5 }

/-- Concrete tracking record that is still live at time 10. -/
def tokRecB : TokenRec :=
  { token_id := "b", username := PyVal.str "ub", issued := 0, expiration := 50 }

/-! Key setup (key_setup, server.py lines 273-304).  The filesystem embeds
as a path-to-content map; the external jwcrypto JWK parser embeds as a
parser parameter returning none when parsing raises, with a concrete model
parser that accepts exactly the serialized private form. -/

structure JWK where
  kid : String
  keyData : String
deriving DecidableEq, Repr

/-- Serialized private form, self._privkey.export_private(). -/
def export_private (k : JWK) : String := "PRIV:" ++ k.kid ++ ":" ++ k.keyData

/-- Serialized public form, self._privkey.export_public(). -/
def export_public (k : JWK) : String := "PUB:" ++ k.kid

/-- Splitting a character list at every occurrence of a separator. -/
def splitOnChar : List Char → Char → List (List Char)
  | [], _ => [[]]
  | x :: xs, c =>
    let rest := splitOnChar xs c
    if x = c then [] :: rest
    else (x :: rest.headD []) :: rest.tail

/-- Model of jwk.JWK.from_json: parses back exactly what export_private
serialized and rejects everything else. -/
def from_json_model (s : String) : Option JWK :=
  match (splitOnChar s.data ':').map (fun l => (⟨l⟩ : String)) with
  | ["PRIV", kid, keyData] => Option.some { kid := kid, keyData := keyData }
  | _ => Option.none

/-- Python file.readline(): the first line of the content. -/
def readline (s : String) : String := ⟨s.data.takeWhile (fun c => c ≠ '\n')⟩

/-- Filesystem contents as a path-to-content association. -/
structure FS where
  files : List (String × String)
deriving DecidableEq, Repr

/-- Opening a path for reading: some content, or none when open raises. -/
def FS.read (fs : FS) (path : String) : Option String :=
  (fs.files.find? (fun p => p.1 == path)).map (fun p => p.2)

/-- Writing a path replaces its content. -/
def FS.write (fs : FS) (path content : String) : FS :=
  { files := (fs.files.filter (fun p => p.1 != path)) ++ [(path, content)] }

/-- How key_setup obtained the active private key. -/
inductive KeyOutcome
  | loadedExisting (k : JWK)
  | generatedNew (k : JWK)
deriving DecidableEq, Repr

/-- The key held in self._privkey after key_setup. -/
def KeyOutcome.key : KeyOutcome → JWK
  | KeyOutcome.loadedExisting k => k
  | KeyOutcome.generatedNew k => k

/-- Embedding of server.py lines 286-288: when no file exists at the
extensionless key_path, create an empty one there. -/
def ensure_key_path_placeholder (key_path : String) (fs : FS) : FS :=
  match fs.read key_path with
  | Option.some _ => fs
  | Option.none => fs.write key_path ""

/-- Embedding of the first try block, server.py lines 289-298: load and
parse the first line of key_path + ".key"; any exception there (file
absent, unreadable, or first line unparseable) takes the except branch,
which generates a fresh keypair and overwrites key_path + ".key" with its
private form. -/
def load_or_create_key (from_json : String → Option JWK) (newKey : JWK)
    (key_path : String) (fs : FS) : KeyOutcome × FS :=
  match fs.read (key_path ++ ".key") with
  | Option.some content =>
    match from_json (readline content) with
    | Option.some k => (KeyOutcome.loadedExisting k, fs)
    | Option.none =>
      (KeyOutcome.generatedNew newKey,
        fs.write (key_path ++ ".key") (export_private newKey))
  | Option.none =>
    (KeyOutcome.generatedNew newKey,
      fs.write (key_path ++ ".key") (export_private newKey))

/-- Embedding of the second try block, server.py lines 299-304: write
key_path + ".pub" with the public form when opening that file raises. -/
def ensure_pub (key_path : String) (step : KeyOutcome × FS) : KeyOutcome × FS :=
  match step.2.read (key_path ++ ".pub") with
  | Option.some _ => step
  | Option.none =>
    (step.1, step.2.write (key_path ++ ".pub") (export_public step.1.key))

/-- Embedding of EasyAuthServer.key_setup (server.py lines 273-304).
key_path is the joined KEY_PATH/KEY_NAME prefix, from_json the external
JWK parser, newKey the keypair jwk.JWK.generate would produce. -/
def key_setup (from_json : String → Option JWK) (newKey : JWK) (key_path : String)
    (fs : FS) : KeyOutcome × FS :=
  ensure_pub key_path
    (load_or_create_key from_json newKey key_path
      (ensure_key_path_placeholder key_path fs))

/-- Concrete fresh keypair. -/
def newKey0 : JWK := { kid := "kid2", keyData := "fresh" }

/-- Concrete filesystem where k.key exists but holds content the JWK
parser rejects. -/
def corruptKeyFS : FS := { files := [("k", ""), ("k.key", "garbage")] }

/-! Google OAuth federation (generate_google_oauth_token, server.py lines
570-632), embedded from the point where id_token.verify_oauth2_token has
returned the decoded claims. -/

/-- Claims of the verified Google ID token used by the flow.  A field is
none when the key is absent from the decoded claims, in which case a
Python subscript access raises KeyError. -/
structure IdInfo where
  email : Option String
  email_verified : Option Bool
  given_name : String
  family_name : String
deriving DecidableEq, Repr

/-- Embedding of the guard on lines 595-601 together with the handler on
lines 603-607: idinfo["email"] raises KeyError when absent and an empty
string is falsy; idinfo["email_verified"] raises KeyError when absent and
False is falsy; the explicit raise on line 599 and every exception land in
the same handler, so the flow proceeds with the email exactly when this
returns some email. -/
def check_social_email (idinfo : IdInfo) : Option String :=
  match idinfo.email with
  | Option.none => Option.none
  | Option.some e =>
    if e = "" then Option.none
    else
      match idinfo.email_verified with
      | Option.some true => Option.some e
      | Option.some false => Option.none
      | Option.none => Option.none

/-- Outcome of generate_google_oauth_token: the generic social-login
error, the activation message returned verbatim, a signed token, or the
residual error paths of token issuance. -/
inductive OauthResult
  | httpError (status : Nat) (detail : String)
  | activationPending (message : String)
  | issuedToken (record : TokenRec) (tok : SignedToken)
  | issueFailed (e : IssueErr)
  | indexError
deriving DecidableEq, Repr

/-- Result of the federation call plus whether the external
self.register_user collaborator was invoked (i.e. whether a local user
creation was attempted). -/
structure OauthOutcome where
  result : OauthResult
  registerCalled : Bool
deriving DecidableEq, Repr

/-- Oracle for the external self.register_user call: the message it
returns and the rows Users.filter(email=email) returns afterwards. -/
structure RegisterOracle where
  message : String
  users_after : List Users
deriving DecidableEq, Repr

/-- Occurrence of a needle inside a character list: it is a prefix of
some suffix. -/
def containsSub (needle : List Char) : List Char → Bool
  | [] => needle.isEmpty
  | x :: xs => needle.isPrefixOf (x :: xs) || containsSub needle xs

/-- Python substring test (the in operator on str). -/
def strContains (haystack needle : String) : Bool :=
  containsSub needle.data haystack.data

/-- Resolution of permissions and token issuance on lines 630-632:
get_user_permissions on the resolved user row, then issue_token. -/
def issueForUser (u : Users) (registerCalled : Bool) (env : IssueEnv)
    (token_id : String) (delta tStore tIssued tJwt : Nat) : OauthOutcome :=
  match issue_token env token_id (get_user_permissions u) delta tStore tIssued tJwt with
  | Except.ok rt =>
    { result := OauthResult.issuedToken rt.1 rt.2, registerCalled := registerCalled }
  | Except.error e =>
    { result := OauthResult.issueFailed e, registerCalled := registerCalled }

/-- Embedding of EasyAuthServer.generate_google_oauth_token (server.py
lines 570-632) after ID-token verification: validate the email claims
(failure raises the generic HTTPException 400 before the user store is
touched); look the user up by email (users_by_email is
Users.filter(email=email)); when absent call register_user and return its
message verbatim when it reports a sent activation email, else re-query
the store (register.users_after) and take row [0] (IndexError when still
empty); finally resolve permissions and issue the token. -/
def generate_google_oauth_token (idinfo : IdInfo) (users_by_email : List Users)
    (register : RegisterOracle) (env : IssueEnv) (token_id : String)
    (delta tStore tIssued tJwt : Nat) : OauthOutcome :=
  match check_social_email idinfo with
  | Option.none =>
    { result := OauthResult.httpError 400 "Unable to validate social login",
      registerCalled := false }
  | Option.some _email =>
    match users_by_email with
    | u :: _ => issueForUser u false env token_id delta tStore tIssued tJwt
    | [] =>
      if strContains register.message "Activation email sent to" then
        { result := OauthResult.activationPending register.message,
          registerCalled := true }
      else
        match register.users_after with
        | [] => { result := OauthResult.indexError, registerCalled := true }
        | u :: _ => issueForUser u true env token_id delta tStore tIssued tJwt

/-- Concrete claims whose email is present but not verified. -/
def idinfoUnverified : IdInfo :=
  { email := Option.some "eve@example.com", email_verified := Option.some false,
    given_name := "Eve", family_name := "Example" }

end EasyAuth

namespace EasyAuth

/-- C1: the claim states that when the hash comparison raises, the call
returns None and never returns the user object.  Evaluating the code at
the failing input (an existing non-service user whose stored hash makes
bcrypt raise ValueError) shows validate_user_pw returns the user object,
authenticating the caller despite the failed comparison. -/
theorem c1_valueError_returns_user :
    validate_user_pw (Option.some aliceCorruptHash) PwCheck.valueError =
      AuthResult.retUser aliceCorruptHash := rfl

/-- C2 counterexample: for an existing service account, validate_user_pw
raises HTTPException 401 instead of returning None, refuting the claim
that a service-typed account yields a returned None regardless of
password. -/
theorem c2_service_account_raises :
    validate_user_pw (Option.some svcAccount) (PwCheck.ok false) ≠ AuthResult.retNone := by
  decide

/-- C2 (amended): for an existing account of type service,
validate_user_pw raises HTTPException 401 "unable to login with service
accounts" regardless of the password; for an existing non-service user
whose stored hash is valid, a wrong password (bcrypt returns False without
raising) yields a returned None. -/
theorem c2_amended (u : Users) :
    (u.account_type = "service" →
      validate_user_pw (Option.some u) (PwCheck.ok false) =
        AuthResult.raised 401 "unable to login with service accounts") ∧
    (u.account_type ≠ "service" →
      validate_user_pw (Option.some u) (PwCheck.ok false) = AuthResult.retNone) := by
  refine ⟨fun h => ?_, fun h => ?_⟩ <;> simp [validate_user_pw, h]

/-- Witness for c2_amended at concrete inputs. -/
theorem c2_amended_witness :
    validate_user_pw (Option.some svcAccount) (PwCheck.ok false) =
      AuthResult.raised 401 "unable to login with service accounts" ∧
    validate_user_pw (Option.some aliceCorruptHash) (PwCheck.ok false) = AuthResult.retNone :=
  ⟨(c2_amended svcAccount).1 rfl, (c2_amended aliceCorruptHash).2 (by decide)⟩

/-- C3: the claim states the actions/roles/groups lists are de-duplicated
by name.  Evaluating get_user_permissions at a user reaching action a2
through two different roles shows the name "a2" is appended twice: the
guard tests the Action object against a list of name strings, which can
never match.  The users list does contain the requesting username, so only
the de-duplication half of the claim fails. -/
theorem c3_duplicate_action_names :
    get_user_permissions bobTwoGroups =
      { actions := Option.some [PyVal.str "a1", PyVal.str "a2", PyVal.str "a2"],
        roles := Option.some [PyVal.str "r1", PyVal.str "r2"],
        groups := Option.some [PyVal.str "g1", PyVal.str "g2"],
        users := Option.some [PyVal.str "bob"] } ∧
    ¬ ((get_user_permissions bobTwoGroups).actions.getD []).Nodup := by
  constructor
  · rfl
  · decide

/-- Unfolding of a single loop iteration of the allowed flag. -/
theorem dimensionHit_iff (tokenPerms : String → Option (List String))
    (p : String × List String) :
    dimensionHit tokenPerms p = true ↔
      ∃ vals, tokenPerms p.1 = Option.some vals ∧ ∃ v ∈ p.2, v ∈ vals := by
  cases h : tokenPerms p.1 <;> simp [dimensionHit, h]

/-- A fold that only ever or-accumulates computes the disjunction of the
per-element tests. -/
theorem foldl_or_eq_any {α : Type} (f : α → Bool) (l : List α) (b : Bool) :
    l.foldl (fun acc x => acc || f x) b = (b || l.any f) := by
  induction l generalizing b with
  | nil => simp
  | cons x xs ih => simp [List.foldl_cons, ih, Bool.or_assoc]

/-- The allowed-flag fold is the disjunction of the per-dimension hits. -/
theorem checkAllowed_eq_any (required : Requirement)
    (tokenPerms : String → Option (List String)) :
    checkAllowed required tokenPerms = required.any (dimensionHit tokenPerms) := by
  have hstep : (fun (allowed : Bool) (p : String × List String) =>
      match tokenPerms p.1 with
      | Option.none => allowed
      | Option.some vals => allowed || p.2.any (fun v => vals.contains v))
      = fun allowed p => allowed || dimensionHit tokenPerms p := by
    funext allowed p
    cases h : tokenPerms p.1 <;> simp [dimensionHit, h]
  unfold checkAllowed
  rw [hstep, foldl_or_eq_any, Bool.false_or]

/-- C4: the permission loop of the router's mock_function allows the
request iff some dimension present in the requirement shares at least one
value with the token snapshot's same dimension, and the empty requirement
always evaluates to deny (fail closed). -/
theorem c4_permission_check (required : Requirement)
    (tokenPerms : String → Option (List String)) :
    (checkAllowed required tokenPerms = true ↔
      ∃ p ∈ required, ∃ vals, tokenPerms p.1 = Option.some vals ∧ ∃ v ∈ p.2, v ∈ vals) ∧
    checkAllowed [] tokenPerms = false := by
  refine ⟨?_, rfl⟩
  rw [checkAllowed_eq_any, List.any_eq_true]
  constructor
  · rintro ⟨p, hp, hhit⟩
    exact ⟨p, hp, (dimensionHit_iff tokenPerms p).mp hhit⟩
  · rintro ⟨p, hp, hex⟩
    exact ⟨p, hp, (dimensionHit_iff tokenPerms p).mpr hex⟩

/-- Witness for c4_permission_check: a concrete requirement on the groups
dimension is satisfied by a concrete snapshot sharing the value
administrators. -/
theorem c4_permission_check_witness :
    checkAllowed [("groups", ["administrators"])]
      (snapshotLookup [("groups", ["administrators", "auditors"])]) = true :=
  (c4_permission_check [("groups", ["administrators"])]
      (snapshotLookup [("groups", ["administrators", "auditors"])])).1.mpr
    ⟨("groups", ["administrators"]), by decide, ["administrators", "auditors"], by decide,
      "administrators", by decide, by decide⟩

/-- C10: evaluating permissions["users"][0] raises KeyError when the
users key is absent and IndexError when its list is empty, aborting
issue_token before any tracking record is created or any token signed. -/
theorem c10_issue_token_requires_users (env : IssueEnv) (token_id : String)
    (permissions : PermDict) (delta tStore tIssued tJwt : Nat) :
    (permissions.users = Option.none →
      issue_token env token_id permissions delta tStore tIssued tJwt =
        Except.error (IssueErr.keyError "users")) ∧
    (permissions.users = Option.some [] →
      issue_token env token_id permissions delta tStore tIssued tJwt =
        Except.error IssueErr.indexError) := by
  refine ⟨fun h => ?_, fun h => ?_⟩ <;> simp [issue_token, h]

/-- Witness for c10_issue_token_requires_users at concrete inputs. -/
theorem c10_issue_token_requires_users_witness :
    issue_token env0 "tid" {} 60 0 0 0 = Except.error (IssueErr.keyError "users") ∧
    issue_token env0 "tid" { users := Option.some [] } 60 0 0 0 =
      Except.error IssueErr.indexError :=
  ⟨(c10_issue_token_requires_users env0 "tid" {} 60 0 0 0).1 rfl,
   (c10_issue_token_requires_users env0 "tid" { users := Option.some [] } 60 0 0 0).2 rfl⟩

/-- C5 counterexample: with the clock advancing by one unit between the
store-write reading and the signing reading, the tracking record carries
expiration 60 while the signed token carries exp 61 — the two expirations
differ, refuting the claim that they are always the same. -/
theorem c5_expirations_can_differ :
    (issue_token env0 "tid" permsAlice 60 0 0 1).toOption.map
      (fun rt => (rt.1.expiration, rt.2.exp)) = Option.some (60, 61) := rfl

/-- C5 (amended): on every successful issuance the tracking record and the
signed token carry the same token_id; each expiration is its own clock
reading plus the ttl, the signing reading never precedes the store-write
reading, so the token's exp is at least the record's expiration and the
two coincide exactly when the two clock readings coincide. -/
theorem c5_amended (env : IssueEnv) (token_id : String) (permissions : PermDict)
    (delta tStore tIssued tJwt : Nat) (record : TokenRec) (tok : SignedToken)
    (hclock : tStore ≤ tJwt)
    (h : issue_token env token_id permissions delta tStore tIssued tJwt =
      Except.ok (record, tok)) :
    record.token_id = tok.payload.token_id ∧
    record.expiration ≤ tok.exp ∧
    (record.expiration = tok.exp ↔ tStore = tJwt) := by
  cases hu : permissions.users with
  | none => simp [issue_token, hu] at h
  | some us =>
    cases us with
    | nil => simp [issue_token, hu] at h
    | cons u0 rest =>
      simp only [issue_token, hu] at h
      cases h' : h.symm
      refine ⟨rfl, Nat.add_le_add_right hclock delta, ?_⟩
      constructor
      · intro he
        exact Nat.add_right_cancel he
      · intro he
        simp [he]

/-- Witness for c5_amended at concrete inputs with coinciding clock
readings. -/
theorem c5_amended_witness :
    ({ token_id := "tid", username := PyVal.str "alice", issued := 0,
       expiration := 60 } : TokenRec).token_id =
      ({ payload := { iss := "EASYAUTH", sub := "EASYAUTH", aud := "easyauth",
                      token_id := "tid", permissions := permsAlice },
         exp := 60 } : SignedToken).payload.token_id ∧
    ({ token_id := "tid", username := PyVal.str "alice", issued := 0,
       expiration := 60 } : TokenRec).expiration ≤
      ({ payload := { iss := "EASYAUTH", sub := "EASYAUTH", aud := "easyauth",
                      token_id := "tid", permissions := permsAlice },
         exp := 60 } : SignedToken).exp ∧
    (({ token_id := "tid", username := PyVal.str "alice", issued := 0,
        expiration := 60 } : TokenRec).expiration =
      ({ payload := { iss := "EASYAUTH", sub := "EASYAUTH", aud := "easyauth",
                      token_id := "tid", permissions := permsAlice },
         exp := 60 } : SignedToken).exp ↔ (0 : Nat) = 0) :=
  c5_amended env0 "tid" permsAlice 60 0 0 0 _ _ (Nat.le_refl 0) rfl

/-- Splitting a list by a predicate preserves its length. -/
theorem length_filter_add_length_filter_not {α : Type} (p : α → Bool) (l : List α) :
    (l.filter p).length + (l.filter (fun a => !(p a))).length = l.length := by
  induction l with
  | nil => rfl
  | cons x xs ih => cases h : p x <;> simp [List.filter_cons, h] <;> omega

/-- C6: token_cleanup keeps exactly the records whose stored expiration is
not strictly before the observed time (so it removes all and only the
records with expiration < now), and the count it reports equals the number
of expired records it removed. -/
theorem c6_token_cleanup (all_tokens : List TokenRec) (now : Nat) :
    (∀ t, t ∈ (token_cleanup all_tokens now).1 ↔
      t ∈ all_tokens ∧ ¬ t.expiration < now) ∧
    (token_cleanup all_tokens now).2 =
      (all_tokens.filter (fun t => decide (t.expiration < now))).length := by
  constructor
  · intro t
    simp [token_cleanup, List.mem_filter]
  · have hsplit := length_filter_add_length_filter_not
      (fun t : TokenRec => decide (t.expiration < now)) all_tokens
    show all_tokens.length -
        (all_tokens.filter (fun t => !(decide (t.expiration < now)))).length = _
    omega

/-- Witness for c6_token_cleanup: at time 10 the record expiring at 50 is
kept and the record that expired at 5 is removed. -/
theorem c6_token_cleanup_witness :
    tokRecB ∈ (token_cleanup [tokRecA, tokRecB] 10).1 ∧
    tokRecA ∉ (token_cleanup [tokRecA, tokRecB] 10).1 :=
  ⟨((c6_token_cleanup [tokRecA, tokRecB] 10).1 tokRecB).mpr ⟨by decide, by decide⟩,
   fun h => (((c6_token_cleanup [tokRecA, tokRecB] 10).1 tokRecA).mp h).2 (by decide)⟩

/-- Deleting the looked-up record is removal of the first record matching
the token id. -/
theorem revoke_token_eq_eraseP (store : List TokenRec) (token_id : String) :
    revoke_token store token_id = store.eraseP (fun t => t.token_id == token_id) := by
  induction store with
  | nil => rfl
  | cons r rest ih =>
    cases hb : r.token_id == token_id with
    | true =>
      have hfind : (r :: rest).find? (fun t => t.token_id == token_id) = Option.some r :=
        List.find?_cons_of_pos _ hb
      simp [revoke_token, hfind, List.erase_cons_head, List.eraseP_cons, hb]
    | false =>
      have hfind : (r :: rest).find? (fun t => t.token_id == token_id) =
          rest.find? (fun t => t.token_id == token_id) :=
        List.find?_cons_of_neg _ (by simp [hb])
      cases hf : rest.find? (fun t => t.token_id == token_id) with
      | none =>
        have hrest : revoke_token rest token_id = rest := by simp [revoke_token, hf]
        simp [revoke_token, hfind, hf, List.eraseP_cons, hb, ← ih, hrest]
      | some t =>
        have hpt := List.find?_some hf
        have hrt : (r == t) = false := by
          rw [beq_eq_false_iff_ne]
          intro he
          rw [he] at hb
          rw [hb] at hpt
          exact Bool.noConfusion hpt
        have herase : (r :: rest).erase t = r :: rest.erase t := by
          rw [List.erase_cons, if_neg]
          intro he
          rw [he] at hrt
          simp at hrt
        have hrest : revoke_token rest token_id = rest.erase t := by
          simp [revoke_token, hf]
        simp [revoke_token, hfind, hf, herase, List.eraseP_cons, hb, ← ih, hrest]

/-- C7: after revoke_token, is_valid_token on the same id is false (given
the store's primary-key invariant that token ids are unique); revoking an
id that is absent, in particular an already-revoked one, leaves the store
unchanged; hence revoking twice equals revoking once and the second call
is a no-op. -/
theorem c7_revoke_token (store : List TokenRec) (token_id : String)
    (hnodup : (store.map (fun t => t.token_id)).Nodup) :
    is_valid_token (revoke_token store token_id) token_id = false ∧
    (is_valid_token store token_id = false → revoke_token store token_id = store) ∧
    revoke_token (revoke_token store token_id) token_id = revoke_token store token_id := by
  have hB : ∀ s : List TokenRec, is_valid_token s token_id = false →
      revoke_token s token_id = s := by
    intro s hs
    unfold revoke_token
    cases hf : s.find? (fun t => t.token_id == token_id) with
    | none => rfl
    | some t =>
      exfalso
      unfold is_valid_token at hs
      rw [hf] at hs
      exact Bool.noConfusion hs
  have hA : is_valid_token (revoke_token store token_id) token_id = false := by
    induction store with
    | nil => rfl
    | cons r rest ih =>
      simp only [List.map_cons, List.nodup_cons, List.mem_map] at hnodup
      obtain ⟨hr, hrest⟩ := hnodup
      cases hb : r.token_id == token_id with
      | true =>
        have hrid : r.token_id = token_id := by simpa using hb
        have hfind : (r :: rest).find? (fun t => t.token_id == token_id) = Option.some r :=
          List.find?_cons_of_pos _ hb
        have hrevoke : revoke_token (r :: rest) token_id = rest := by
          simp [revoke_token, hfind, List.erase_cons_head]
        rw [hrevoke]
        unfold is_valid_token
        have hnone : rest.find? (fun t => t.token_id == token_id) = Option.none := by
          rw [List.find?_eq_none]
          intro t ht
          simp only [beq_iff_eq]
          intro he
          exact hr ⟨t, ht, he.trans hrid.symm⟩
        rw [hnone]
        rfl
      | false =>
        have hfind : (r :: rest).find? (fun t => t.token_id == token_id) =
            rest.find? (fun t => t.token_id == token_id) :=
          List.find?_cons_of_neg _ (by simp [hb])
        cases hf : rest.find? (fun t => t.token_id == token_id) with
        | none =>
          have hrevoke : revoke_token (r :: rest) token_id = r :: rest := by
            simp [revoke_token, hfind, hf]
          rw [hrevoke]
          unfold is_valid_token
          rw [List.find?_cons_of_neg _ (by simp [hb]), hf]
          rfl
        | some t =>
          have hpt := List.find?_some hf
          have hrt : (r == t) = false := by
            rw [beq_eq_false_iff_ne]
            intro he
            rw [he] at hb
            rw [hb] at hpt
            exact Bool.noConfusion hpt
          have herase : (r :: rest).erase t = r :: rest.erase t := by
            rw [List.erase_cons, if_neg]
            intro he
            rw [he] at hrt
            simp at hrt
          have hrevoke : revoke_token (r :: rest) token_id = r :: revoke_token rest token_id := by
            simp [revoke_token, hfind, hf, herase]
          rw [hrevoke]
          unfold is_valid_token
          rw [List.find?_cons_of_neg _ (by simp [hb])]
          exact ih hrest
  exact ⟨hA, hB store, hB (revoke_token store token_id) hA⟩

/-- Witness for c7_revoke_token at a concrete one-record store. -/
theorem c7_revoke_token_witness :
    is_valid_token (revoke_token [tokRecA] "a") "a" = false ∧
    (is_valid_token [tokRecA] "a" = false → revoke_token [tokRecA] "a" = [tokRecA]) ∧
    revoke_token (revoke_token [tokRecA] "a") "a" = revoke_token [tokRecA] "a" :=
  c7_revoke_token [tokRecA] "a" (by decide)

/-- Appending distinct suffixes to the same string yields distinct
strings. -/
theorem append_ne_of_suffix_ne (s t u : String) (h : t ≠ u) : s ++ t ≠ s ++ u := by
  intro he
  apply h
  apply String.ext
  have hd : s.data ++ t.data = s.data ++ u.data := by
    rw [← String.data_append, ← String.data_append, he]
  exact List.append_cancel_left hd

/-- Appending a nonempty suffix changes a string. -/
theorem append_ne_self_of_nonempty (s t : String) (h : t.length ≠ 0) : s ++ t ≠ s := by
  intro he
  apply h
  have hl := congrArg String.length he
  rw [String.length_append] at hl
  omega

/-- Filtering out entries under a different key does not change a key
lookup. -/
theorem find?_filter_ne (files : List (String × String)) (p q : String) (h : p ≠ q) :
    (files.filter (fun e => e.1 != q)).find? (fun e => e.1 == p) =
      files.find? (fun e => e.1 == p) := by
  induction files with
  | nil => rfl
  | cons e rest ih =>
    by_cases heq : e.1 = q
    · have hp : (e.1 == p) = false := by
        simp only [beq_eq_false_iff_ne]
        rw [heq]
        exact fun hx => h hx.symm
      have hne : (e.1 != q) = false := by simp [heq]
      simp [List.filter_cons, List.find?_cons, hne, hp, ih]
    · cases hp : e.1 == p with
      | true => simp [List.filter_cons, List.find?_cons, heq, hp]
      | false => simp [List.filter_cons, List.find?_cons, heq, hp, ih]

/-- Filtering out entries under a key makes its lookup fail. -/
theorem find?_filter_self (files : List (String × String)) (q : String) :
    (files.filter (fun e => e.1 != q)).find? (fun e => e.1 == q) = Option.none := by
  rw [List.find?_eq_none]
  intro e he
  have hmem := (List.mem_filter.mp he).2
  simp only [bne_iff_ne] at hmem
  simp only [beq_iff_eq]
  exact hmem

/-- Reading a path other than the one just written is unaffected. -/
theorem FS.read_write_ne (fs : FS) (p q c : String) (h : p ≠ q) :
    (fs.write q c).read p = fs.read p := by
  unfold FS.read FS.write
  rw [List.find?_append, find?_filter_ne fs.files p q h]
  have h1 : [(q, c)].find? (fun e => e.1 == p) = Option.none := by
    rw [List.find?_eq_none]
    intro e he
    simp only [List.mem_singleton] at he
    simp only [he, beq_iff_eq]
    exact fun hx => h hx.symm
  rw [h1]
  cases fs.files.find? (fun e => e.1 == p) <;> rfl

/-- Reading the path just written returns the written content. -/
theorem FS.read_write_eq (fs : FS) (q c : String) :
    (fs.write q c).read q = Option.some c := by
  unfold FS.read FS.write
  rw [List.find?_append, find?_filter_self fs.files q]
  simp

/-- C8 counterexample: on a filesystem where k.key exists but holds
content the JWK parser rejects, key_setup proceeds with a freshly
generated key and overwrites k.key with it — it neither fails nor
preserves the existing key material. -/
theorem c8_corrupt_key_silently_replaced :
    corruptKeyFS.read ("k" ++ ".key") = Option.some "garbage" ∧
    from_json_model (readline "garbage") = Option.none ∧
    (key_setup from_json_model newKey0 "k" corruptKeyFS).1 =
      KeyOutcome.generatedNew newKey0 ∧
    (key_setup from_json_model newKey0 "k" corruptKeyFS).2.read ("k" ++ ".key") =
      Option.some (export_private newKey0) := by
  refine ⟨rfl, rfl, rfl, rfl⟩

/-- C8 (amended): when a key file exists at path/name.key but its first
line does not parse as a JWK, key_setup does not fail the startup: it
silently generates a fresh keypair, adopts it, and overwrites
path/name.key with the new private form, replacing the existing key
material. -/
theorem c8_amended (from_json : String → Option JWK) (newKey : JWK)
    (key_path : String) (fs : FS) (content : String)
    (hfile : fs.read (key_path ++ ".key") = Option.some content)
    (hparse : from_json (readline content) = Option.none) :
    (key_setup from_json newKey key_path fs).1 = KeyOutcome.generatedNew newKey ∧
    (key_setup from_json newKey key_path fs).2.read (key_path ++ ".key") =
      Option.some (export_private newKey) := by
  have hne1 : key_path ++ ".key" ≠ key_path :=
    append_ne_self_of_nonempty _ _ (by decide)
  have hne2 : key_path ++ ".key" ≠ key_path ++ ".pub" :=
    append_ne_of_suffix_ne _ _ _ (by decide)
  have h1 : (ensure_key_path_placeholder key_path fs).read (key_path ++ ".key") =
      Option.some content := by
    unfold ensure_key_path_placeholder
    cases h0 : fs.read key_path with
    | some c0 => exact hfile
    | none => rw [FS.read_write_ne _ _ _ _ hne1]; exact hfile
  have h2 : load_or_create_key from_json newKey key_path
      (ensure_key_path_placeholder key_path fs) =
      (KeyOutcome.generatedNew newKey,
        (ensure_key_path_placeholder key_path fs).write (key_path ++ ".key")
          (export_private newKey)) := by
    simp only [load_or_create_key, h1, hparse]
  have h3 : ∀ step : KeyOutcome × FS, (ensure_pub key_path step).1 = step.1 ∧
      (ensure_pub key_path step).2.read (key_path ++ ".key") =
        step.2.read (key_path ++ ".key") := by
    intro step
    unfold ensure_pub
    cases hp : step.2.read (key_path ++ ".pub") with
    | some c0 => exact ⟨rfl, rfl⟩
    | none => exact ⟨rfl, FS.read_write_ne _ _ _ _ hne2⟩
  unfold key_setup
  rw [h2]
  refine ⟨(h3 _).1, ?_⟩
  rw [(h3 _).2, FS.read_write_eq]

/-- Witness for c8_amended at the concrete corrupt filesystem. -/
theorem c8_amended_witness :
    (key_setup from_json_model newKey0 "k" corruptKeyFS).1 =
      KeyOutcome.generatedNew newKey0 ∧
    (key_setup from_json_model newKey0 "k" corruptKeyFS).2.read ("k" ++ ".key") =
      Option.some (export_private newKey0) :=
  c8_amended from_json_model newKey0 "k" corruptKeyFS "garbage" rfl rfl

/-- C9: whenever the verified ID-token claims lack the email key or carry
an email_verified value other than True, generate_google_oauth_token
raises the generic "Unable to validate social login" error, never calls
the registration collaborator (creates no local user) and issues no
token. -/
theorem c9_unverified_email_rejected (idinfo : IdInfo) (users_by_email : List Users)
    (register : RegisterOracle) (env : IssueEnv) (token_id : String)
    (delta tStore tIssued tJwt : Nat)
    (h : idinfo.email = Option.none ∨ idinfo.email_verified ≠ Option.some true) :
    generate_google_oauth_token idinfo users_by_email register env token_id
        delta tStore tIssued tJwt =
      { result := OauthResult.httpError 400 "Unable to validate social login",
        registerCalled := false } := by
  have hc : check_social_email idinfo = Option.none := by
    cases h with
    | inl h1 => simp [check_social_email, h1]
    | inr h2 =>
      cases he : idinfo.email with
      | none => simp [check_social_email, he]
      | some e =>
        by_cases hee : e = ""
        · simp [check_social_email, he, hee]
        · cases hv : idinfo.email_verified with
          | none => simp [check_social_email, he, hee, hv]
          | some b =>
            cases b with
            | true => exact absurd hv h2
            | false => simp [check_social_email, he, hee, hv]
  unfold generate_google_oauth_token
  rw [hc]

/-- Witness for c9_unverified_email_rejected at concrete claims whose
email_verified is False. -/
theorem c9_unverified_email_rejected_witness :
    generate_google_oauth_token idinfoUnverified []
        { message := "", users_after := [] } env0 "tid" 60 0 0 0 =
      { result := OauthResult.httpError 400 "Unable to validate social login",
        registerCalled := false } :=
  c9_unverified_email_rejected idinfoUnverified []
    { message := "", users_after := [] } env0 "tid" 60 0 0 0 (Or.inr (by decide))

end EasyAuth
